import Mathlib

/-!
Verification of the SustainaLens company sustainability calculator
(src/Sustainability_Calc.py) against its specification.

The single source function, calculate_sustainability_metrics, takes a
pandas DataFrame of company records and computes derived columns:
totals and intensities, year-on-year change, CDP normalization, four
sub-scores, a composite readiness index and a greenwash-risk label.

Embedding choices:
* pandas floats are embedded as rationals (ℚ); every arithmetic formula
  of the source is translated literally.
* a DataFrame is a list of rows.  An input row (Row) carries the input
  columns of the source's required-column list; the numeric required
  columns are carried as total values (the claims under study concern
  rows where they are present), while cdp_score is an Option, since the
  source handles its absence explicitly (map + fillna).
* column assignment in pandas (df[c] = ...) mutates the caller's frame
  in place, and the function returns that same frame; so the caller's
  frame after the call is exactly the value this embedding's
  calculate_sustainability_metrics returns.  A working row (DfRow)
  therefore pairs the input columns with an Option-valued block of
  derived columns, none before the call.
-/

namespace SustainaLens

/-- an input record: the required columns of the source function
(docstring lines 18-22 of src/Sustainability_Calc.py). -/
structure Row where
  company : String
  sector : String
  revenue_usd_b : ℚ
  employees_k : ℚ
  scope1_mt : ℚ
  scope2_mt : ℚ
  scope3_mt : ℚ
  renewable_pct : ℚ
  sbti : Bool
  target_year : ℚ
  interim_2030_pct : ℚ
  capex_green_pct : ℚ
  cdp_score : Option String
  year : ℤ
  last_year_total_mt : ℚ
deriving DecidableEq

/-- np.clip(x, 0, 1). -/
def clip01 (x : ℚ) : ℚ := min (max x 0) 1

/-- np.interp(x, [a, b], [fa, fb]) for a two-point breakpoint list:
clamped to fa below a, to fb above b, linear between. -/
def npInterp (a b fa fb x : ℚ) : ℚ :=
  if x ≤ a then fa else if b ≤ x then fb else fa + (x - a) * (fb - fa) / (b - a)

/-- line 26: total_mt = scope1_mt + scope2_mt + scope3_mt. -/
def total_mt (r : Row) : ℚ := r.scope1_mt + r.scope2_mt + r.scope3_mt

/-- line 27: intensity_mt_per_billion = total_mt / revenue_usd_b. -/
def intensity_mt_per_billion (r : Row) : ℚ := total_mt r / r.revenue_usd_b

/-- line 28: intensity_t_per_employee = (total_mt * 1e6) / (employees_k * 1e3). -/
def intensity_t_per_employee (r : Row) : ℚ :=
  (total_mt r * 1000000) / (r.employees_k * 1000)

/-- line 31: yoy_change_mt = total_mt - last_year_total_mt. -/
def yoy_change_mt (r : Row) : ℚ := total_mt r - r.last_year_total_mt

/-- line 32: yoy_change_pct = (yoy_change_mt / last_year_total_mt) * 100.
the division is unguarded in the source; over ℚ it is total, while over
floats a zero last_year_total_mt yields a non-finite value (see C5). -/
def yoy_change_pct (r : Row) : ℚ := (yoy_change_mt r / r.last_year_total_mt) * 100

/-- line 35: the fixed CDP table, as the partial lookup pandas map performs. -/
def cdp_map (s : String) : Option ℚ :=
  if s = "A" then some 1
  else if s = "A-" then some 0.9
  else if s = "B" then some 0.7
  else if s = "C" then some 0.5
  else if s = "D" then some 0.3
  else none

/-- line 36: cdp_norm = cdp_score.map(cdp_map).fillna(0.5): an absent score
or one outside the table falls back to 0.5. -/
def cdp_norm (r : Row) : ℚ := (r.cdp_score.bind cdp_map).getD 0.5

/-- lines 39-45: ambition score. -/
def ambition_score (r : Row) : ℚ :=
  let year_bonus := max 0 (2050 - r.target_year) / 20
  let interim := r.interim_2030_pct / 60
  let sbti := if r.sbti then (1 : ℚ) else 0.6
  clip01 (0.4 * year_bonus + 0.4 * interim + 0.2 * sbti)

/-- line 50: the yoy term of the progress score, np.interp applied to the
negated yoy_change_pct over breakpoints [-5, 30] and values [0, 1]. -/
def yoyNorm (r : Row) : ℚ := npInterp (-5) 30 0 1 (-(yoy_change_pct r))

/-- lines 48-54: progress score. -/
def progress_score (r : Row) : ℚ :=
  let ren := r.renewable_pct / 100
  let capex := r.capex_green_pct / 35
  clip01 (0.5 * yoyNorm r + 0.3 * ren + 0.2 * capex)

/-- lines 57-59: completeness is the notna fraction over the six required
columns scope1_mt, scope2_mt, scope3_mt, renewable_pct, capex_green_pct,
cdp_score.  In this embedding the five numeric columns are carried as
total values, hence present; cdp_score presence is its Option. -/
def completeness (r : Row) : ℚ := (5 + (if r.cdp_score.isSome then 1 else 0)) / 6

/-- line 60: disclosure score. -/
def disclosure_score (r : Row) : ℚ :=
  clip01 (0.7 * cdp_norm r + 0.3 * completeness r)

/-- line 65: the alignment term of the credibility score. -/
def alignTerm (r : Row) : ℚ := npInterp 5 35 0 1 r.capex_green_pct

/-- lines 63-70: credibility score. -/
def credibility_score (r : Row) : ℚ :=
  let penalty := max 0 (ambition_score r - progress_score r) * 0.3
  clip01 (0.5 * ambition_score r + 0.3 * alignTerm r
    + 0.2 * disclosure_score r - penalty)

/-- lines 73-78: composite net-zero readiness. -/
def netzero_readiness (r : Row) : ℚ :=
  clip01 (0.25 * ambition_score r + 0.30 * progress_score r
    + 0.25 * credibility_score r + 0.20 * disclosure_score r)

/-- lines 81-85: nested np.where classification, first match wins. -/
def greenwash_risk (r : Row) : String :=
  if ambition_score r > 0.7 ∧ r.capex_green_pct < 12 ∧ yoy_change_pct r > 0 then
    "High"
  else if ambition_score r > 0.6 ∧ progress_score r < 0.45 then "Medium"
  else "Low"

/-- the block of derived columns the function assigns. -/
structure Derived where
  total_mt : ℚ
  intensity_mt_per_billion : ℚ
  intensity_t_per_employee : ℚ
  yoy_change_mt : ℚ
  yoy_change_pct : ℚ
  cdp_norm : ℚ
  ambition_score : ℚ
  progress_score : ℚ
  disclosure_score : ℚ
  credibility_score : ℚ
  netzero_readiness : ℚ
  greenwash_risk : String
deriving DecidableEq

/-- the derived columns of one row, in the source's dependency order. -/
def deriveAll (r : Row) : Derived :=
  { total_mt := total_mt r
    intensity_mt_per_billion := intensity_mt_per_billion r
    intensity_t_per_employee := intensity_t_per_employee r
    yoy_change_mt := yoy_change_mt r
    yoy_change_pct := yoy_change_pct r
    cdp_norm := cdp_norm r
    ambition_score := ambition_score r
    progress_score := progress_score r
    disclosure_score := disclosure_score r
    credibility_score := credibility_score r
    netzero_readiness := netzero_readiness r
    greenwash_risk := greenwash_risk r }

/-- one row of the DataFrame state: the input columns plus the derived
columns when they have been assigned (none before the call). -/
structure DfRow where
  input : Row
  derived : Option Derived
deriving DecidableEq

/-- lines 26-87: the whole function as a transformer of the frame state.
Every df[c] = ... statement assigns a column of the caller's frame in
place and the function returns that same frame, so the caller's frame
after the call IS this value.  Each derived column is an elementwise or
row-iterated computation, so the transformer acts rowwise. -/
def calculate_sustainability_metrics (df : List DfRow) : List DfRow :=
  df.map fun x => { x with derived := some (deriveAll x.input) }

/-- the sample company of the source's __main__ block (lines 92-108),
also the scenario record of the specification. -/
def sampleRow : Row :=
  { company := "ExampleBank"
    sector := "Banking"
    revenue_usd_b := 100
    employees_k := 200
    scope1_mt := 0.2
    scope2_mt := 0.3
    scope3_mt := 5
    renewable_pct := 80
    sbti := true
    target_year := 2040
    interim_2030_pct := 45
    capex_green_pct := 15
    cdp_score := some "A-"
    year := 2024
    last_year_total_mt := 6 }

lemma total_mt_sample : total_mt sampleRow = 11 / 2 := by
  norm_num [total_mt, sampleRow]

lemma yoy_change_mt_sample : yoy_change_mt sampleRow = -(1 / 2) := by
  rw [yoy_change_mt, total_mt_sample]; norm_num [sampleRow]

lemma yoy_change_pct_sample : yoy_change_pct sampleRow = -(25 / 3) := by
  rw [yoy_change_pct, yoy_change_mt_sample]; norm_num [sampleRow]

lemma cdp_norm_sample : cdp_norm sampleRow = 9 / 10 := by
  simp [cdp_norm, cdp_map, sampleRow]; norm_num

lemma ambition_sample : ambition_score sampleRow = 7 / 10 := by
  norm_num [ambition_score, clip01, sampleRow, min_def, max_def]

lemma yoyNorm_sample : yoyNorm sampleRow = 8 / 21 := by
  rw [yoyNorm, yoy_change_pct_sample]; norm_num [npInterp]

lemma progress_sample : progress_score sampleRow = 271 / 525 := by
  simp only [progress_score]
  rw [yoyNorm_sample]
  norm_num [clip01, sampleRow, min_def, max_def]

lemma disclosure_sample : disclosure_score sampleRow = 93 / 100 := by
  simp only [disclosure_score, completeness]
  rw [cdp_norm_sample]
  norm_num [clip01, sampleRow, min_def, max_def]

lemma alignTerm_sample : alignTerm sampleRow = 1 / 3 := by
  norm_num [alignTerm, npInterp, sampleRow]

lemma credibility_sample : credibility_score sampleRow = 2033 / 3500 := by
  simp only [credibility_score]
  rw [ambition_sample, progress_sample, alignTerm_sample, disclosure_sample]
  norm_num [clip01, min_def, max_def]

lemma netzero_sample : netzero_readiness sampleRow = 1851 / 2800 := by
  simp only [netzero_readiness]
  rw [ambition_sample, progress_sample, credibility_sample, disclosure_sample]
  norm_num [clip01, min_def, max_def]

lemma greenwash_sample : greenwash_risk sampleRow = "Low" := by
  simp only [greenwash_risk, ambition_sample, progress_sample,
    yoy_change_pct_sample]
  norm_num [sampleRow]

/-- C1: on the scenario record the engine yields total_mt = 5.5,
yoy_change_mt = -0.5, yoy_change_pct = -25/3, cdp_norm = 0.9, a
netzero_readiness strictly between 0.4 and 0.8, and greenwash_risk
Low. -/
theorem scenario_sample_outputs :
    total_mt sampleRow = 11 / 2 ∧
    yoy_change_mt sampleRow = -(1 / 2) ∧
    yoy_change_pct sampleRow = -(25 / 3) ∧
    cdp_norm sampleRow = 9 / 10 ∧
    2 / 5 < netzero_readiness sampleRow ∧
    netzero_readiness sampleRow < 4 / 5 ∧
    greenwash_risk sampleRow = "Low" := by
  refine ⟨total_mt_sample, yoy_change_mt_sample, yoy_change_pct_sample,
    cdp_norm_sample, ?_, ?_, greenwash_sample⟩ <;>
    rw [netzero_sample] <;> norm_num

lemma clip01_nonneg (x : ℚ) : 0 ≤ clip01 x :=
  le_min (le_max_right x 0) zero_le_one

lemma clip01_le_one (x : ℚ) : clip01 x ≤ 1 := min_le_right _ _

/-- C2: on every well-formed record (positive revenue and head count,
nonzero prior-year baseline; over ℚ every value is finite) the four
sub-scores and the composite readiness all lie in [0, 1], each being a
clip to [0, 1] of its weighted sum. -/
theorem scores_in_unit_interval (r : Row)
    (h1 : 0 < r.revenue_usd_b) (h2 : 0 < r.employees_k)
    (h3 : r.last_year_total_mt ≠ 0) :
    (0 ≤ ambition_score r ∧ ambition_score r ≤ 1) ∧
    (0 ≤ progress_score r ∧ progress_score r ≤ 1) ∧
    (0 ≤ disclosure_score r ∧ disclosure_score r ≤ 1) ∧
    (0 ≤ credibility_score r ∧ credibility_score r ≤ 1) ∧
    (0 ≤ netzero_readiness r ∧ netzero_readiness r ≤ 1) := by
  unfold ambition_score progress_score disclosure_score credibility_score
    netzero_readiness
  exact ⟨⟨clip01_nonneg _, clip01_le_one _⟩, ⟨clip01_nonneg _, clip01_le_one _⟩,
    ⟨clip01_nonneg _, clip01_le_one _⟩, ⟨clip01_nonneg _, clip01_le_one _⟩,
    ⟨clip01_nonneg _, clip01_le_one _⟩⟩

/-- the range invariant instantiated on the scenario record. -/
theorem scores_in_unit_interval_witness :
    0 ≤ netzero_readiness sampleRow ∧ netzero_readiness sampleRow ≤ 1 :=
  (scores_in_unit_interval sampleRow (by norm_num [sampleRow])
    (by norm_num [sampleRow]) (by norm_num [sampleRow])).2.2.2.2

/-- C7: cdp_norm follows the fixed table A 1.0, A- 0.9, B 0.7, C 0.5,
D 0.3, and every score outside the table, an absent one included, falls
back to 0.5; in particular an unmapped F yields 0.5. -/
theorem cdp_norm_table (r : Row) :
    (r.cdp_score = some "A" → cdp_norm r = 1) ∧
    (r.cdp_score = some "A-" → cdp_norm r = 0.9) ∧
    (r.cdp_score = some "B" → cdp_norm r = 0.7) ∧
    (r.cdp_score = some "C" → cdp_norm r = 0.5) ∧
    (r.cdp_score = some "D" → cdp_norm r = 0.3) ∧
    (∀ s : String, s ≠ "A" → s ≠ "A-" → s ≠ "B" → s ≠ "C" → s ≠ "D" →
      r.cdp_score = some s → cdp_norm r = 0.5) ∧
    (r.cdp_score = none → cdp_norm r = 0.5) ∧
    cdp_norm { r with cdp_score := some "F" } = 0.5 := by
  refine ⟨fun h => ?_, fun h => ?_, fun h => ?_, fun h => ?_, fun h => ?_,
    fun s hA hA2 hB hC hD h => ?_, fun h => ?_, ?_⟩ <;>
    simp_all [cdp_norm, cdp_map]

/-- the CDP fallback instantiated: the scenario record rated A- maps to
0.9. -/
theorem cdp_norm_table_witness : cdp_norm sampleRow = 0.9 :=
  (cdp_norm_table sampleRow).2.1 rfl

/-- C10: the greenwash label reads only the ambition score, the progress
score, the green-capex share and the year-on-year change, none of which
involves cdp_score, so two records differing only in their CDP rating
get the same label. -/
theorem greenwash_risk_ignores_cdp (r : Row) (c d : String) :
    greenwash_risk { r with cdp_score := some c } =
      greenwash_risk { r with cdp_score := some d } := rfl

/-- a record whose ambition score is 53/75 (just above 0.7), with
capex_green_pct 10 and yoy_change_pct 1 (total 101 against baseline
100). -/
def highCapex10Row : Row :=
  { sampleRow with
    scope1_mt := 101
    scope2_mt := 0
    scope3_mt := 0
    last_year_total_mt := 100
    interim_2030_pct := 46
    capex_green_pct := 10
    renewable_pct := 0 }

/-- the same record with capex_green_pct raised to 20. -/
def highCapex20Row : Row := { highCapex10Row with capex_green_pct := 20 }

lemma ambition_highCapex10 : ambition_score highCapex10Row = 53 / 75 := by
  norm_num [ambition_score, clip01, highCapex10Row, sampleRow, min_def,
    max_def]

lemma yoy_change_pct_highCapex10 : yoy_change_pct highCapex10Row = 1 := by
  norm_num [yoy_change_pct, yoy_change_mt, total_mt, highCapex10Row,
    sampleRow]

lemma greenwash_highCapex10 : greenwash_risk highCapex10Row = "High" := by
  simp only [greenwash_risk, ambition_highCapex10, yoy_change_pct_highCapex10]
  norm_num [highCapex10Row, sampleRow]

lemma ambition_highCapex20 : ambition_score highCapex20Row = 53 / 75 := by
  norm_num [ambition_score, clip01, highCapex20Row, highCapex10Row,
    sampleRow, min_def, max_def]

lemma yoy_change_pct_highCapex20 : yoy_change_pct highCapex20Row = 1 := by
  norm_num [yoy_change_pct, yoy_change_mt, total_mt, highCapex20Row,
    highCapex10Row, sampleRow]

lemma yoyNorm_highCapex20 : yoyNorm highCapex20Row = 4 / 35 := by
  rw [yoyNorm, yoy_change_pct_highCapex20]; norm_num [npInterp]

lemma progress_highCapex20 : progress_score highCapex20Row = 6 / 35 := by
  simp only [progress_score]
  rw [yoyNorm_highCapex20]
  norm_num [clip01, highCapex20Row, highCapex10Row, sampleRow, min_def,
    max_def]

lemma greenwash_highCapex20 : greenwash_risk highCapex20Row = "Medium" := by
  simp only [greenwash_risk, ambition_highCapex20,
    yoy_change_pct_highCapex20, progress_highCapex20]
  norm_num [highCapex20Row, highCapex10Row, sampleRow]

/-- C3: the label is a first-match-wins three-tier rule — High exactly
when ambition is above 0.7, green capex below 12 and emissions rising;
else Medium exactly when ambition is above 0.6 and progress below 0.45;
else Low — and at the boundary records, capex 10 classifies High while
capex 20 with the same other values does not. -/
theorem greenwash_risk_tiers :
    (∀ r : Row,
      (greenwash_risk r = "High" ↔
        (ambition_score r > 0.7 ∧ r.capex_green_pct < 12 ∧
          yoy_change_pct r > 0)) ∧
      (greenwash_risk r = "Medium" ↔
        (¬(ambition_score r > 0.7 ∧ r.capex_green_pct < 12 ∧
            yoy_change_pct r > 0) ∧
          ambition_score r > 0.6 ∧ progress_score r < 0.45)) ∧
      (greenwash_risk r = "Low" ↔
        (¬(ambition_score r > 0.7 ∧ r.capex_green_pct < 12 ∧
            yoy_change_pct r > 0) ∧
          ¬(ambition_score r > 0.6 ∧ progress_score r < 0.45)))) ∧
    greenwash_risk highCapex10Row = "High" ∧
    greenwash_risk highCapex20Row ≠ "High" := by
  refine ⟨fun r => ?_, greenwash_highCapex10, ?_⟩
  · unfold greenwash_risk
    split_ifs with hHigh hMed <;> simp_all
  · rw [greenwash_highCapex20]; simp

/-- a record whose year-on-year percentage is exactly 5: its yoy term
vanishes, witnessing the amended boundary. -/
def yoyPlus5Row : Row :=
  { sampleRow with
    scope1_mt := 105
    scope2_mt := 0
    scope3_mt := 0
    last_year_total_mt := 100 }

/-- a record whose year-on-year percentage is exactly -30: its yoy term
is one. -/
def yoyMinus30Row : Row :=
  { sampleRow with
    scope1_mt := 70
    scope2_mt := 0
    scope3_mt := 0
    last_year_total_mt := 100 }

/-- a record whose year-on-year percentage is exactly -5. -/
def yoyMinus5Row : Row :=
  { sampleRow with
    scope1_mt := 95
    scope2_mt := 0
    scope3_mt := 0
    last_year_total_mt := 100 }

lemma yoy_change_pct_minus5 : yoy_change_pct yoyMinus5Row = -5 := by
  norm_num [yoy_change_pct, yoy_change_mt, total_mt, yoyMinus5Row, sampleRow]

/-- C6 counterexample: on a record whose yoy_change_pct is exactly -5 the
yoy term of the progress score is 2/7, not 0: the source interpolates the
NEGATED percentage over the breakpoints [-5, 30], so the claimed boundary
values hold at the opposite signs. -/
theorem yoyNorm_at_minus_five_not_zero :
    yoy_change_pct yoyMinus5Row = -5 ∧ yoyNorm yoyMinus5Row = 2 / 7 ∧
    yoyNorm yoyMinus5Row ≠ 0 := by
  refine ⟨yoy_change_pct_minus5, ?_, ?_⟩ <;>
    rw [yoyNorm, yoy_change_pct_minus5] <;> norm_num [npInterp]

/-- C6 amended: the yoy term interpolates -yoy_change_pct over
[-5, 30] → [0, 1], so it is exactly 0 at yoy_change_pct = 5, exactly 1
at yoy_change_pct = -30, stays 0 for every percentage above 5 and stays
1 for every percentage below -30. -/
theorem yoyNorm_boundaries (r : Row) :
    (yoy_change_pct r = 5 → yoyNorm r = 0) ∧
    (yoy_change_pct r = -30 → yoyNorm r = 1) ∧
    (5 < yoy_change_pct r → yoyNorm r = 0) ∧
    (yoy_change_pct r < -30 → yoyNorm r = 1) := by
  unfold yoyNorm npInterp
  refine ⟨fun h => ?_, fun h => ?_, fun h => ?_, fun h => ?_⟩
  · rw [h]; norm_num
  · rw [h]; norm_num
  · rw [if_pos (by linarith)]
  · rw [if_neg (by linarith), if_pos (by linarith)]

/-- the amended boundaries instantiated on records with yoy_change_pct
equal to 5 and to -30. -/
theorem yoyNorm_boundaries_witness :
    yoyNorm yoyPlus5Row = 0 ∧ yoyNorm yoyMinus30Row = 1 :=
  ⟨(yoyNorm_boundaries yoyPlus5Row).1
      (by norm_num [yoy_change_pct, yoy_change_mt, total_mt, yoyPlus5Row,
        sampleRow]),
    (yoyNorm_boundaries yoyMinus30Row).2.1
      (by norm_num [yoy_change_pct, yoy_change_mt, total_mt, yoyMinus30Row,
        sampleRow])⟩

lemma clip01_mono {x y : ℚ} (h : x ≤ y) : clip01 x ≤ clip01 y :=
  min_le_min (max_le_max h le_rfl) le_rfl

lemma npInterp01_mono (a b : ℚ) (hab : a < b) {x y : ℚ} (h : x ≤ y) :
    npInterp a b 0 1 x ≤ npInterp a b 0 1 y := by
  unfold npInterp
  have hba : 0 < b - a := by linarith
  split_ifs <;> (try simp only [sub_zero, mul_one, zero_add]) <;>
    first
      | linarith
      | (apply div_nonneg <;> linarith)
      | (rw [div_le_one hba]; linarith)
      | (rw [div_le_div_iff_of_pos_right hba]; nlinarith)

/-- C8: holding every other field fixed, a larger renewable_pct never
decreases the progress score, and a larger capex_green_pct never
decreases the alignment term of the credibility score. -/
theorem monotone_renewable_capex (r : Row) (v w : ℚ) (hvw : v ≤ w) :
    progress_score { r with renewable_pct := v } ≤
      progress_score { r with renewable_pct := w } ∧
    alignTerm { r with capex_green_pct := v } ≤
      alignTerm { r with capex_green_pct := w } := by
  constructor
  · have hy : yoyNorm { r with renewable_pct := v } =
        yoyNorm { r with renewable_pct := w } := rfl
    simp only [progress_score]
    apply clip01_mono
    simp only [hy]
    have hdiv : v / 100 ≤ w / 100 := by linarith
    linarith
  · show npInterp 5 35 0 1 v ≤ npInterp 5 35 0 1 w
    exact npInterp01_mono 5 35 (by norm_num) hvw

/-- the monotonicity instantiated on the scenario record at 10 against
20 percent. -/
theorem monotone_renewable_capex_witness :
    progress_score { sampleRow with renewable_pct := 10 } ≤
      progress_score { sampleRow with renewable_pct := 20 } ∧
    alignTerm { sampleRow with capex_green_pct := 10 } ≤
      alignTerm { sampleRow with capex_green_pct := 20 } :=
  monotone_renewable_capex sampleRow 10 20 (by norm_num)

/-- the scenario record as an unscored frame row. -/
def sampleDfRow : DfRow := { input := sampleRow, derived := none }

/-- C4 counterexample: under the in-place column-assignment semantics of
pandas the caller's frame after the call is the function's value, and on
an unscored one-row frame that value differs from the input frame — the
derived block of the row has been written. -/
theorem calc_mutates_input_frame :
    calculate_sustainability_metrics [sampleDfRow] ≠ [sampleDfRow] := by
  simp [calculate_sustainability_metrics, sampleDfRow]

/-- C4 amended: the function leaves every input column of every record
with its original value and derives the output block of each record from
that record's input columns alone, but it writes the derived columns into
the input frame in place and returns that same frame rather than a fresh
copy. -/
theorem calc_writes_derived_in_place (df : List DfRow) :
    (calculate_sustainability_metrics df).map DfRow.input =
      df.map DfRow.input ∧
    calculate_sustainability_metrics df =
      df.map fun x => { input := x.input, derived := some (deriveAll x.input) } := by
  refine ⟨?_, rfl⟩
  simp only [calculate_sustainability_metrics, List.map_map]
  rfl

/-- the scenario record with a zero prior-year baseline. -/
def zeroBaselineRow : Row := { sampleRow with last_year_total_mt := 0 }

/-- C5: the function has no report-and-exclude path: it maps every row of
the frame to a scored row, so the output length always equals the input
length, and a record with a zero prior-year baseline — which reaches the
unguarded division of line 32 — is still scored and kept. -/
theorem zero_baseline_not_excluded :
    (∀ df : List DfRow,
      (calculate_sustainability_metrics df).length = df.length) ∧
    zeroBaselineRow.last_year_total_mt = 0 ∧
    (calculate_sustainability_metrics
      [{ input := zeroBaselineRow, derived := none }]).length = 1 := by
  refine ⟨fun df => ?_, rfl, rfl⟩
  simp [calculate_sustainability_metrics]

/-- the length preservation instantiated on a one-row frame. -/
theorem zero_baseline_not_excluded_witness :
    (calculate_sustainability_metrics [sampleDfRow]).length = [sampleDfRow].length :=
  (zero_baseline_not_excluded).1 [sampleDfRow]

/-- the capex-10 boundary record as an unscored frame row. -/
def highCapex10DfRow : DfRow := { input := highCapex10Row, derived := none }

/-- C9: scoring is deterministic and per-record: a duplicated record is
scored to the same value as one copy scored twice, a permutation of the
frame permutes the output the same way, and the output at every index is
exactly what scoring that one record alone produces. -/
theorem batch_deterministic_order_independent
    (df df2 : List DfRow) (h : df.Perm df2) (x : DfRow) (i : ℕ) :
    calculate_sustainability_metrics [x, x] =
      calculate_sustainability_metrics [x] ++
        calculate_sustainability_metrics [x] ∧
    (calculate_sustainability_metrics df).Perm
      (calculate_sustainability_metrics df2) ∧
    (calculate_sustainability_metrics df)[i]? =
      (df[i]?).bind fun y =>
        (calculate_sustainability_metrics [y])[0]? := by
  refine ⟨rfl, h.map _, ?_⟩
  simp only [calculate_sustainability_metrics, List.getElem?_map]
  cases df[i]? <;> simp

/-- the order independence instantiated on a two-row frame and its
swap. -/
theorem batch_deterministic_order_independent_witness :
    (calculate_sustainability_metrics [sampleDfRow, highCapex10DfRow]).Perm
      (calculate_sustainability_metrics [highCapex10DfRow, sampleDfRow]) :=
  (batch_deterministic_order_independent [sampleDfRow, highCapex10DfRow]
    [highCapex10DfRow, sampleDfRow]
    (List.Perm.swap highCapex10DfRow sampleDfRow [])
    sampleDfRow 0).2.1

end SustainaLens
